import Mathlib

set_option maxRecDepth 8192

/-!
A shallow embedding of the rsync backup wrapper (`src/backup_lib.py`, the
operative module; `src/backup.py` is an earlier iteration of the same
program), together with theorems settling the specification claims about it.

Modelling conventions:
* Paths are plain strings.  `os.path.abspath` is the identity on already
  normalized absolute paths, and every scenario below uses only such paths,
  so it is modelled as the identity (callers pass absolute paths directly).
* Python `AssertionError` (the program's ValidationError) and
  `AttributeError` are modelled by the `PyErr` type; fallible code returns
  `Except PyErr`.
* The filesystem is modelled as two lists of path strings (directories and
  plain files); `os.listdir` results and the cwd-relative `os.path.isdir`
  predicate used by `FromBackupDrive` are passed in explicitly.
* The module-level list `_fixed_rsync_args` is mutated in place by
  `rsync_cmds` (the Python code rebinds `args = _fixed_rsync_args` each
  iteration and then appends to it).  Its current value is therefore
  threaded through `rsyncCmdsAux` as explicit state and returned.
-/

/-- Python `str.startswith`: is `pre` a prefix of `s`. -/
def pyStartswith (s pre : String) : Bool := pre.data.isPrefixOf s.data

/-- Python `str.endswith`: is `suf` a suffix of `s`. -/
def pyEndswith (s suf : String) : Bool := suf.data.isSuffixOf s.data

/-- `os.path.join` on two POSIX components, as in `posixpath.join`:
an absolute second component replaces the first, otherwise a single
separator is inserted unless one is already present. -/
def pyJoin (a b : String) : String :=
  if pyStartswith b "/" then b
  else if a = "" || pyEndswith a "/" then a ++ b
  else a ++ "/" ++ b

/-- The Python exceptions the embedded code can raise: `AssertionError`
(carrying the assert's message; the spec's ValidationError) and the
`AttributeError` raised by `posixpath.join` when handed a list instead of a
string. -/
inductive PyErr where
  | assertionError (msg : String)
  | attributeError
deriving DecidableEq

/-- An element of `rsync_cmds`' `excluded_files` list.  Because the code
executes `excluded_files.append(visited)` (appending the whole `visited`
list object), the list is heterogeneous: strings or nested lists of
strings. -/
inductive ExEntry where
  | str (s : String)
  | nested (xs : List String)
deriving DecidableEq

/-- The `Backup` object of `backup_lib.py`: instance variables assigned at
the end of `Backup.__init__`. -/
structure Backup where
  src : String
  dst : String
  prev_backup : Option String
  backup_order : List String
deriving DecidableEq

/-- Boolean string membership in a list (Python `in` / `os.path.exists`
lookups against our explicit filesystem model). -/
def strMem (x : String) : List String → Bool
  | [] => false
  | y :: ys => (x == y) || strMem x ys

/-- Filesystem model: the set of existing directories and plain files,
each named by its path string. -/
structure FS where
  dirs : List String
  files : List String
deriving DecidableEq

/-- `os.path.isdir`. -/
def FS.isdir (fs : FS) (p : String) : Bool := strMem p fs.dirs

/-- `os.path.exists`. -/
def FS.pathExists (fs : FS) (p : String) : Bool :=
  strMem p fs.dirs || strMem p fs.files

/-- `os.mkdir`. -/
def FS.mkdir (fs : FS) (p : String) : FS := ⟨p :: fs.dirs, fs.files⟩

/-- `open(p, "w")`: create (or truncate) a plain file. -/
def FS.touch (fs : FS) (p : String) : FS := ⟨fs.dirs, p :: fs.files⟩

/-- `Backup._LOG_FILE`. -/
def logFile : String := "rsync_backup.log"

/-- `Backup._DONE_FILE` (the CompletionMarker). -/
def doneFile : String := "BACKUP_DONE"

/-- The module-level `_fixed_rsync_args` list, as initialized at import
time. -/
def fixedRsyncArgs : List String :=
  ["-av", "--no-D", "--checksum", "--out-format=\"%n (%b/%l) %i\""]

/-- The test `v.startswith(f)` by which `rsync_cmds` decides that a visited
path `v` lies inside (is a descendant of) the current entry `f`. -/
def dirDescendantTest (v f : String) : Bool := pyStartswith v f

/-- The test `f.startswith(v)` by which `rsync_cmds` decides that a visited
path `v` already covers (is an ancestor of) the current entry `f`. -/
def dirAncestorTest (v f : String) : Bool := pyStartswith f v

/-- The `excluded_files` computation of `rsync_cmds` for one entry `f`
given the `visited` list: for the remainder token the code assigns
`excluded_files = visited` (a list of strings); otherwise, for each visited
`v` with `v.startswith(f)` it appends the whole `visited` list (a nested
list); the `f.startswith(v)` branch is `continue` and the final branch is
`pass`, both of which only move to the next `v`.  (The nested entry is a
reference to `visited`, but it is consumed in the same iteration, before
`visited` is mutated again, so its value here is the current one.) -/
def computeExcluded (f : String) (visited : List String) : List ExEntry :=
  if f = "..." then visited.map ExEntry.str
  else
    visited.foldl
      (fun acc v =>
        if dirDescendantTest v f then acc ++ [ExEntry.nested visited]
        else if dirAncestorTest v f then acc
        else acc)
      []

/-- The loop `for ex in excluded_files: args.append("--exclude=" +
join(src, ex))`.  Formatting a nested entry calls `posixpath.join` with a
list, which raises `AttributeError` (lists have no `startswith`). -/
def appendExcludeArgs (src : String) :
    List String → List ExEntry → Except PyErr (List String)
  | tmpl, [] => .ok tmpl
  | tmpl, ExEntry.str s :: rest =>
      appendExcludeArgs src (tmpl ++ ["--exclude=" ++ pyJoin src s]) rest
  | _, ExEntry.nested _ :: _ => .error .attributeError

/-- The loop body of `Backup.rsync_cmds`: `tmpl` is the current value of
the module-level `_fixed_rsync_args` object, which each iteration rebinds
as `args` and then extends in place (exclude flags, `--link-dest`,
`--dry-run`); the command list snapshots it via `["rsync"] + args + ...`. -/
def rsyncCmdsAux (b : Backup) (dryRun : Bool) :
    List String → List String → List (List String) → List String →
    Except PyErr (List (List String) × List String)
  | tmpl, _, cmds, [] => .ok (cmds, tmpl)
  | tmpl, visited, cmds, f :: rest =>
    match appendExcludeArgs b.src tmpl (computeExcluded f visited) with
    | .error e => .error e
    | .ok tmpl1 =>
      let tmpl2 := match b.prev_backup with
        | some p => tmpl1 ++ ["--link-dest=" ++ p]
        | none => tmpl1
      let tmpl3 := if dryRun then tmpl2 ++ ["--dry-run"] else tmpl2
      let srcArg := if f = "..." then b.src ++ "/" else pyJoin b.src f
      rsyncCmdsAux b dryRun tmpl3 (visited ++ [f])
        (cmds ++ [["rsync"] ++ tmpl3 ++ [srcArg, b.dst]]) rest

/-- `Backup.rsync_cmds`: returns the list of rsync command lines and the
final value of the shared `_fixed_rsync_args` object. -/
def rsyncCmds (b : Backup) (dryRun : Bool) (tmpl : List String) :
    Except PyErr (List (List String) × List String) :=
  rsyncCmdsAux b dryRun tmpl [] [] b.backup_order

/-- The sanitizing loop at the top of `Backup.__init__`: `i` is the loop
index, `n` the length of the whole `backup_order` list, `acc` the
`clean_backup_order` accumulator.  `px` is `os.path.exists`. -/
def cleanOrderAux (px : String → Bool) (src : String) (n : Nat) :
    Nat → List String → List String → Except PyErr (List String)
  | _, acc, [] => .ok acc
  | i, acc, f :: rest =>
    if f = "..." then
      if i = n - 1 then cleanOrderAux px src n (i + 1) (acc ++ [f]) rest
      else .error (.assertionError "\"...\" must be last in backup order")
    else if px (pyJoin src f) then
      cleanOrderAux px src n (i + 1) (acc ++ [f]) rest
    else
      .error (.assertionError
        ("file " ++ pyJoin src f ++ " in backup order does not exist"))

/-- The order-spec validation of `Backup.__init__` (the BackupOrderSpec
checks): the remainder token must be the last entry, and every other entry
must exist under `src`. -/
def cleanBackupOrder (px : String → Bool) (src : String)
    (order : List String) : Except PyErr (List String) :=
  cleanOrderAux px src order.length 0 [] order

/-- The destination checks at the end of `Backup.__init__`: an absent
destination is created with `os.mkdir`; an existing one must be a
directory and must not already contain the CompletionMarker. -/
def backupInitDst (fs : FS) (src dst : String) (prev : Option String)
    (cleaned : List String) : Except PyErr (Backup × FS) :=
  if fs.pathExists dst then
    if fs.isdir dst then
      if fs.pathExists (pyJoin dst doneFile) then
        .error (.assertionError
          ("dst (" ++ dst ++ ") already contains a completed backup"))
      else .ok (⟨src, dst, prev, cleaned⟩, fs)
    else .error (.assertionError ("dst exists and isn't dir: " ++ dst))
  else .ok (⟨src, dst, prev, cleaned⟩, fs.mkdir dst)

/-- `Backup.__init__`: sanitize the backup order, then validate `src`,
`prev_backup` and `dst` in the source's order, creating `dst` when
absent. -/
def backupInit (fs : FS) (src dst : String) (prev : Option String)
    (backup_order : List String) : Except PyErr (Backup × FS) :=
  match cleanBackupOrder fs.pathExists src backup_order with
  | .error e => .error e
  | .ok cleaned =>
    if fs.isdir src then
      match prev with
      | some p =>
        if fs.isdir p then backupInitDst fs src dst prev cleaned
        else .error (.assertionError
          ("prev_backup (" ++ p ++ ") is not a dir"))
      | none => backupInitDst fs src dst prev cleaned
    else .error (.assertionError ("src(" ++ src ++ ") is not a dir"))

/-- `Backup.run_rsync_cmds`: opens the log file in `dst` (creating it),
computes the command list, invokes each command through `proc.call` —
whose returned exit status (`exitStatus cmd`) the code discards — and
finally touches the CompletionMarker.  Returns the mutated filesystem, the
list of commands actually invoked and the final shared-template value.
(When `rsyncCmds` raises, the already-performed log-file creation is not
reflected in the error result; no claim below depends on it.  The external
tool's own writes into `dst` are outside the model.) -/
def runRsyncCmds (b : Backup) (dryRun : Bool) (outputFile : Option String)
    (tmpl : List String) (fs : FS) (exitStatus : List String → Int) :
    Except PyErr (FS × List (List String) × List String) :=
  let fs1 := match outputFile with
    | some f => fs.touch (pyJoin b.dst f)
    | none => fs
  match rsyncCmds b dryRun tmpl with
  | .error e => .error e
  | .ok (cmds, tmpl1) =>
    let _ := cmds.map exitStatus
    .ok (fs1.touch (pyJoin b.dst doneFile), cmds, tmpl1)

/-- A calendar date, the payload of the midnight datetimes compared by
`Backup.FromBackupDrive` (it normalizes both sides to midnight, so only
year, month and day take part in the `==` and `>` comparisons). -/
structure Date where
  year : Nat
  month : Nat
  day : Nat
deriving DecidableEq

/-- Strict datetime comparison on midnight datetimes: lexicographic on
(year, month, day). -/
def dateLt (a b : Date) : Bool :=
  Nat.blt a.year b.year ||
    (a.year == b.year &&
      (Nat.blt a.month b.month ||
        (a.month == b.month && Nat.blt a.day b.day)))

/-- Python `str.strip` on a character list. -/
def pyStrip (s : List Char) : List Char :=
  ((s.dropWhile Char.isWhitespace).reverse.dropWhile Char.isWhitespace).reverse

/-- Split a character list on a separator character (the structure of the
`%d-%b-%Y` format: day, month name and year are separated by hyphens and
contain none themselves). -/
def splitOnChar (c : Char) : List Char → List (List Char)
  | [] => [[]]
  | x :: xs =>
    if x = c then [] :: splitOnChar c xs
    else
      match splitOnChar c xs with
      | [] => [[x]]
      | y :: ys => (x :: y) :: ys

/-- Is the character list a nonempty run of decimal digits. -/
def isDigitList (l : List Char) : Bool := !l.isEmpty && l.all Char.isDigit

/-- Numeric value of a digit run. -/
def natOfDigits (l : List Char) : Nat :=
  l.foldl (fun n c => 10 * n + (c.toNat - 48)) 0

/-- `%b`: case-insensitive abbreviated English month name. -/
def parseMonth (l : List Char) : Option Nat :=
  let s := String.mk (l.map Char.toLower)
  if s = "jan" then some 1
  else if s = "feb" then some 2
  else if s = "mar" then some 3
  else if s = "apr" then some 4
  else if s = "may" then some 5
  else if s = "jun" then some 6
  else if s = "jul" then some 7
  else if s = "aug" then some 8
  else if s = "sep" then some 9
  else if s = "oct" then some 10
  else if s = "nov" then some 11
  else if s = "dec" then some 12
  else none

/-- Gregorian leap-year rule, as used by `datetime`'s day-of-month
validation. -/
def isLeap (y : Nat) : Bool :=
  (y % 4 == 0 && y % 100 != 0) || y % 400 == 0

/-- Number of days in a month, as validated by the `datetime`
constructor. -/
def daysInMonth (y m : Nat) : Nat :=
  if m = 2 then (if isLeap y then 29 else 28)
  else if m = 4 ∨ m = 6 ∨ m = 9 ∨ m = 11 then 30
  else 31

/-- `datetime.strptime(s.strip(), "%d-%b-%Y")` returning a midnight
datetime, modelled as: strip whitespace; split on hyphens into exactly a
1-2 digit day, an abbreviated month name and a 4-digit year; then apply
the `datetime` range validation (day within the month, year at least 1).
Any failure is the `ValueError` the caller's `except` swallows. -/
def parseDate (s : String) : Option Date :=
  match splitOnChar '-' (pyStrip s.data) with
  | [ds, ms, ys] =>
    if isDigitList ds && (ds.length == 1 || ds.length == 2) then
      match parseMonth ms with
      | some m =>
        if isDigitList ys && ys.length == 4 then
          let d := natOfDigits ds
          let y := natOfDigits ys
          if 1 ≤ d ∧ d ≤ daysInMonth y m ∧ 1 ≤ y then some ⟨y, m, d⟩
          else none
        else none
      | none => none
    else none
  | _ => none

/-- The scan loop of `Backup.FromBackupDrive`: fold over `os.listdir
(drive)`.  Crucially the guard is `if not isdir(d): continue` with the
bare entry name `d`, so the directory test resolves against the process's
current working directory, not against `drive`; `isdirCwd` is that
cwd-relative predicate.  Entries that fail to parse are skipped by the
`except` clause; an entry equal to today is skipped; otherwise the running
maximum is updated when `t > most_recent`. -/
def findMostRecent (entries : List String) (isdirCwd : String → Bool)
    (today : Date) : Option Date :=
  entries.foldl
    (fun most d =>
      if !isdirCwd d then most
      else
        match parseDate d with
        | none => most
        | some t =>
          if t = today then most
          else
            match most with
            | none => some t
            | some m => if dateLt m t then some t else most)
    none

/-- Two-digit zero padding, as `strftime`'s `%d`. -/
def pad2 (n : Nat) : String := if n < 10 then "0" ++ toString n else toString n

/-- `strftime`'s `%b`: capitalized abbreviated month name. -/
def monthAbbrev (m : Nat) : String :=
  if m = 1 then "Jan"
  else if m = 2 then "Feb"
  else if m = 3 then "Mar"
  else if m = 4 then "Apr"
  else if m = 5 then "May"
  else if m = 6 then "Jun"
  else if m = 7 then "Jul"
  else if m = 8 then "Aug"
  else if m = 9 then "Sep"
  else if m = 10 then "Oct"
  else if m = 11 then "Nov"
  else "Dec"

/-- `strftime(Backup._DATE_FORMAT)`, i.e. `d.strftime("%d-%b-%Y")`. -/
def formatDate (d : Date) : String :=
  pad2 d.day ++ "-" ++ monthAbbrev d.month ++ "-" ++ toString d.year

/-- The `most_recent_path` computation of `Backup.FromBackupDrive`: the
scan result mapped back through `strftime` and joined to the drive, or
`None` when no previous backup was found. -/
def mostRecentPath (drive : String) (entries : List String)
    (isdirCwd : String → Bool) (today : Date) : Option String :=
  (findMostRecent entries isdirCwd today).map
    (fun m => pyJoin drive (formatDate m))

/-- An exit-status environment in which the external tool fails (status 1)
on the first synchronization unit of the `["a", "b"]` plan rooted at `/s`,
and succeeds elsewhere. -/
def failFirstUnit (c : List String) : Int :=
  if c = ["rsync"] ++ fixedRsyncArgs ++ ["/s/a", "/d"] then 1 else 0

theorem cleanOrderAux_ok_eq (px : String → Bool) (src : String) (n : Nat) :
    ∀ (l : List String) (i : Nat) (acc res : List String),
      cleanOrderAux px src n i acc l = .ok res → res = acc ++ l := by
  intro l
  induction l with
  | nil =>
    intro i acc res h
    simp only [cleanOrderAux] at h
    cases h
    simp
  | cons f rest ih =>
    intro i acc res h
    simp only [cleanOrderAux] at h
    split at h
    · split at h
      · have := ih _ _ _ h
        simp [this, List.append_assoc]
      · exact Except.noConfusion h
    · split at h
      · have := ih _ _ _ h
        simp [this, List.append_assoc]
      · exact Except.noConfusion h

/-- C1: the executor ignores the external tool's exit status.  Evaluated at
the failing input — a two-unit plan whose first rsync invocation exits with
status 1 (`failFirstUnit`) — `run_rsync_cmds` still invokes the second
unit and still touches the `BACKUP_DONE` CompletionMarker in the
destination, contradicting the claim that a nonzero status aborts the
remaining units and suppresses the marker (the return value of `proc.call`
is discarded by the code). -/
theorem run_ignores_exit_status_and_writes_marker :
    failFirstUnit (["rsync"] ++ fixedRsyncArgs ++ ["/s/a", "/d"]) = 1
    ∧ runRsyncCmds ⟨"/s", "/d", none, ["a", "b"]⟩ false (some logFile)
        fixedRsyncArgs ⟨["/s", "/d"], []⟩ failFirstUnit
      = .ok (⟨["/s", "/d"], ["/d/BACKUP_DONE", "/d/rsync_backup.log"]⟩,
             [["rsync"] ++ fixedRsyncArgs ++ ["/s/a", "/d"],
              ["rsync"] ++ fixedRsyncArgs ++ ["/s/b", "/d"]],
             fixedRsyncArgs) := by
  exact ⟨by decide, rfl⟩

/-- C2: an entry covered by a previously scheduled ancestor is NOT
skipped.  For the order `["a", "a/b"]` the plan builder still emits a
second rsync command for `a/b` (the `continue` in the ancestor branch only
advances the inner comparison loop, contradicting its own comment
"Already backed up parent -- skip this"), whereas the claim requires that
no SyncUnit be emitted for `a/b`. -/
theorem ancestor_covered_entry_still_emitted :
    rsyncCmds ⟨"/s", "/d", none, ["a", "a/b"]⟩ false fixedRsyncArgs
      = .ok ([["rsync"] ++ fixedRsyncArgs ++ ["/s/a", "/d"],
              ["rsync"] ++ fixedRsyncArgs ++ ["/s/a/b", "/d"]],
             fixedRsyncArgs) := rfl

/-- C3: the exclusion set is not a flat list of paths.  For the order
`["a/b", "a"]` (the visited path `a/b` is a descendant of the entry `a`)
the code appends the entire `visited` list as a single nested element and
then crashes with `AttributeError` while formatting the `--exclude`
argument (`posixpath.join` is handed a list); the claim requires the flat
exclusion set containing exactly `a/b`.  The repository's own
`test_ordered_backup` exercises exactly this entry order. -/
theorem descendant_exclusion_is_nested_and_crashes :
    rsyncCmds ⟨"/s", "/d", none, ["a/b", "a"]⟩ false fixedRsyncArgs
      = .error .attributeError := rfl

/-- C4: SyncUnit argument lists are not independent.  Each iteration of
`rsync_cmds` rebinds `args = _fixed_rsync_args` and appends in place, so
one unit's additions leak into every later unit and into later calls:
(first conjunct) with two unrelated entries and `dry_run` set, the second
unit's command carries `--dry-run` twice and the shared template ends up
mutated; (second conjunct) after a `["a", "..."]` run has pushed
`--exclude=/s/a` into the shared template, a subsequent `rsync_cmds` call
emits that exclusion inside the unit for `a` itself — an unrelated unit
whose own exclusion set is empty. -/
theorem shared_template_mutation_leaks_across_units :
    (rsyncCmds ⟨"/s", "/d", none, ["a", "b"]⟩ true fixedRsyncArgs
      = .ok ([["rsync"] ++ fixedRsyncArgs ++ ["--dry-run", "/s/a", "/d"],
              ["rsync"] ++ fixedRsyncArgs
                ++ ["--dry-run", "--dry-run", "/s/b", "/d"]],
             fixedRsyncArgs ++ ["--dry-run", "--dry-run"]))
    ∧ (rsyncCmds ⟨"/s", "/d", none, ["a", "..."]⟩ false fixedRsyncArgs
      = .ok ([["rsync"] ++ fixedRsyncArgs ++ ["/s/a", "/d"],
              ["rsync"] ++ fixedRsyncArgs ++ ["--exclude=/s/a", "/s/", "/d"]],
             fixedRsyncArgs ++ ["--exclude=/s/a"]))
    ∧ (rsyncCmds ⟨"/s", "/d", none, ["a", "..."]⟩ false
        (fixedRsyncArgs ++ ["--exclude=/s/a"])
      = .ok ([["rsync"] ++ fixedRsyncArgs ++ ["--exclude=/s/a", "/s/a", "/d"],
              ["rsync"] ++ fixedRsyncArgs
                ++ ["--exclude=/s/a", "--exclude=/s/a", "/s/", "/d"]],
             fixedRsyncArgs ++ ["--exclude=/s/a", "--exclude=/s/a"])) :=
  ⟨rfl, rfl, rfl⟩

/-- C5: overlap detection is raw string prefix, not path segments.  The
builder's own branch tests classify `dir1` as an ancestor of its sibling
`dir10` and `dir10` as a descendant of `dir1`; concretely, for the order
`["dir10", "dir1"]` the sibling `dir10` is treated as lying inside `dir1`
and the run crashes in the nested-exclusion append, whereas the claim
requires the two siblings to be unrelated (two clean units). -/
theorem string_overlap_misclassifies_siblings :
    dirAncestorTest "dir1" "dir10" = true
    ∧ dirDescendantTest "dir10" "dir1" = true
    ∧ rsyncCmds ⟨"/s", "/d", none, ["dir10", "dir1"]⟩ false fixedRsyncArgs
        = .error .attributeError :=
  ⟨by decide, by decide, rfl⟩

/-- C6: the previous-backup resolver's directory guard `if not isdir(d)`
tests the bare entry name against the process's current working directory,
not against the drive.  At the claim's own input — drive entries
`30-Jan-2000`, `not-a-date` and today's `12-Oct-2026` — the resolver
returns no previous backup whenever the cwd lacks directories of those
names (first conjunct), instead of `30-Jan-2000` as the claim requires;
only when the cwd happens to mirror them (e.g. the tests chdir into the
drive) does it return `/drive/30-Jan-2000`, skipping `not-a-date` and
today's own directory (second conjunct). -/
theorem resolver_isdir_checks_cwd_not_drive :
    mostRecentPath "/drive" ["30-Jan-2000", "not-a-date", "12-Oct-2026"]
        (fun _ => false) ⟨2026, 10, 12⟩ = none
    ∧ mostRecentPath "/drive" ["30-Jan-2000", "not-a-date", "12-Oct-2026"]
        (fun _ => true) ⟨2026, 10, 12⟩ = some "/drive/30-Jan-2000" := by
  exact ⟨by decide, by decide⟩

/-- C7: a destination that already contains the CompletionMarker is
refused.  Whenever the destination exists, is a directory and holds
`BACKUP_DONE`, `Backup.__init__` raises the AssertionError (the
ValidationError) naming the destination, before any rsync command can be
built or run — the `mkdir` branch is not taken and the error propagates
out of the constructor, so the destination is untouched. -/
theorem doneMarker_blocks_init (fs : FS) (src dst : String)
    (prev : Option String)
    (hsrc : fs.isdir src = true)
    (hprev : (match prev with | some p => fs.isdir p | none => true) = true)
    (hdst : fs.pathExists dst = true) (hdir : fs.isdir dst = true)
    (hmark : fs.pathExists (pyJoin dst doneFile) = true) :
    backupInit fs src dst prev ["..."]
      = .error (.assertionError
          ("dst (" ++ dst ++ ") already contains a completed backup")) := by
  cases prev with
  | none =>
    simp [backupInit, cleanBackupOrder, cleanOrderAux, backupInitDst,
      hsrc, hdst, hdir, hmark]
  | some p =>
    simp only [] at hprev
    simp [backupInit, cleanBackupOrder, cleanOrderAux, backupInitDst,
      hsrc, hprev, hdst, hdir, hmark]

theorem doneMarker_blocks_init_witness :
    backupInit ⟨["/s", "/d"], ["/d/BACKUP_DONE"]⟩ "/s" "/d" none ["..."]
      = .error (.assertionError
          ("dst (" ++ "/d" ++ ") already contains a completed backup")) := by
  exact doneMarker_blocks_init ⟨["/s", "/d"], ["/d/BACKUP_DONE"]⟩ "/s" "/d"
    none (by decide) (by decide) (by decide) (by decide) (by decide)

/-- C8: order-spec validation.  First conjunct: any order beginning with
the remainder token followed by further entries is rejected with the
AssertionError naming the token.  Second conjunct: a non-remainder entry
whose resolved path does not exist is rejected with the AssertionError
naming that path.  Third conjunct: whenever validation succeeds, the
returned order is exactly the input order (order preserved). -/
theorem cleanOrder_rejects_and_preserves
    (px : String → Bool) (src q f : String) (rest order l : List String)
    (hf : f ≠ "...") (hex : px (pyJoin src f) = false)
    (hok : cleanBackupOrder px src order = .ok l) :
    cleanBackupOrder px src ("..." :: q :: rest)
      = .error (.assertionError "\"...\" must be last in backup order")
    ∧ cleanBackupOrder px src [f]
      = .error (.assertionError
          ("file " ++ pyJoin src f ++ " in backup order does not exist"))
    ∧ l = order := by
  refine ⟨?_, ?_, ?_⟩
  · simp [cleanBackupOrder, cleanOrderAux]
  · simp [cleanBackupOrder, cleanOrderAux, hf, hex]
  · simpa using cleanOrderAux_ok_eq px src order.length order 0 [] l hok

theorem cleanOrder_rejects_and_preserves_witness :
    cleanBackupOrder (fun _ => false) "/s" ["...", "x"]
      = .error (.assertionError "\"...\" must be last in backup order")
    ∧ cleanBackupOrder (fun _ => false) "/s" ["a"]
      = .error (.assertionError
          ("file " ++ pyJoin "/s" "a" ++ " in backup order does not exist"))
    ∧ ([] : List String) = [] := by
  exact cleanOrder_rejects_and_preserves (fun _ => false) "/s" "x" "a" [] [] []
    (by decide) rfl rfl

/-- C9: the default order spec (the single remainder token) yields exactly
one rsync command whose source argument is the source root with a trailing
slash, whose exclusion set is empty (no `--exclude` flag is ever
appended: the pristine fixed arguments are followed only by the optional
`--link-dest` and `--dry-run` flags), and which carries
`--link-dest=<prev>` precisely when a previous backup is configured. -/
theorem defaultOrder_single_unit (src dst : String) (prev : Option String)
    (dryRun : Bool) :
    rsyncCmds ⟨src, dst, prev, ["..."]⟩ dryRun fixedRsyncArgs
      = .ok ([["rsync"]
                ++ (fixedRsyncArgs
                     ++ (match prev with
                         | some p => ["--link-dest=" ++ p]
                         | none => [])
                     ++ (if dryRun then ["--dry-run"] else []))
                ++ [src ++ "/", dst]],
             fixedRsyncArgs
               ++ (match prev with
                   | some p => ["--link-dest=" ++ p]
                   | none => [])
               ++ (if dryRun then ["--dry-run"] else [])) := by
  cases prev <;> cases dryRun <;> rfl

/-- C10: a dry run still mutates the destination.  From any state where
the source is a directory and the destination absent: the constructor
creates the destination directory; running the executor with
`dry_run = True` writes the log file and the `BACKUP_DONE`
CompletionMarker into it (every rsync command merely carries `--dry-run`);
and a subsequent real run against the same destination is refused by the
constructor's completed-backup check. -/
theorem dryRun_writes_marker (fs : FS) (src dst : String)
    (hsrc : fs.isdir src = true) (habs : fs.pathExists dst = false) :
    backupInit fs src dst none ["..."]
      = .ok (⟨src, dst, none, ["..."]⟩, fs.mkdir dst)
    ∧ runRsyncCmds ⟨src, dst, none, ["..."]⟩ true (some logFile)
        fixedRsyncArgs (fs.mkdir dst) (fun _ => 0)
      = .ok (((fs.mkdir dst).touch (pyJoin dst logFile)).touch
               (pyJoin dst doneFile),
             [["rsync"] ++ fixedRsyncArgs ++ ["--dry-run"]
                ++ [src ++ "/", dst]],
             fixedRsyncArgs ++ ["--dry-run"])
    ∧ backupInit (((fs.mkdir dst).touch (pyJoin dst logFile)).touch
          (pyJoin dst doneFile)) src dst none ["..."]
      = .error (.assertionError
          ("dst (" ++ dst ++ ") already contains a completed backup")) := by
  have hsrc' : strMem src fs.dirs = true := hsrc
  refine ⟨?_, ?_, ?_⟩
  · simp [backupInit, cleanBackupOrder, cleanOrderAux, backupInitDst,
      hsrc, habs]
  · rfl
  · simp [backupInit, cleanBackupOrder, cleanOrderAux, backupInitDst,
      FS.mkdir, FS.touch, FS.isdir, FS.pathExists, strMem, hsrc']

theorem dryRun_writes_marker_witness :
    backupInit ⟨["/s"], []⟩ "/s" "/d" none ["..."]
      = .ok (⟨"/s", "/d", none, ["..."]⟩, FS.mkdir ⟨["/s"], []⟩ "/d")
    ∧ runRsyncCmds ⟨"/s", "/d", none, ["..."]⟩ true (some logFile)
        fixedRsyncArgs (FS.mkdir ⟨["/s"], []⟩ "/d") (fun _ => 0)
      = .ok (((FS.mkdir ⟨["/s"], []⟩ "/d").touch
                (pyJoin "/d" logFile)).touch (pyJoin "/d" doneFile),
             [["rsync"] ++ fixedRsyncArgs ++ ["--dry-run"]
                ++ ["/s" ++ "/", "/d"]],
             fixedRsyncArgs ++ ["--dry-run"])
    ∧ backupInit (((FS.mkdir ⟨["/s"], []⟩ "/d").touch
          (pyJoin "/d" logFile)).touch (pyJoin "/d" doneFile))
        "/s" "/d" none ["..."]
      = .error (.assertionError
          ("dst (" ++ "/d" ++ ") already contains a completed backup")) := by
  exact dryRun_writes_marker ⟨["/s"], []⟩ "/s" "/d" (by decide) (by decide)
